import Mathlib

/-!
Verification of the rustbridge Modbus gateway core against its specification.

The definitions below are a shallow embedding of the Rust sources:
machine words (u16/u32) are natural numbers, `f64` engineering values are
modelled as exact rationals, hash maps are association lists, and the
effectful poll/write loops become explicit state-passing functions.
-/

/- Data model, from src/config.rs. -/

/-- Register data interpretation, from config.rs `DataType`. -/
inductive DataType
  | U16
  | I16
  | U32
  | I32
  | F32
  | Bool
deriving DecidableEq

/-- Modbus register kind, from config.rs `RegisterType`. -/
inductive RegisterType
  | Holding
  | Input
  | Coil
  | Discrete
deriving DecidableEq

/-- Register descriptor, from config.rs `RegisterConfig`.  Addresses and
counts are u16 values modelled as naturals; scale and offset are the
optional f64 calibration constants, modelled as rationals. -/
structure RegisterConfig where
  name : String
  address : Nat
  register_type : RegisterType
  count : Nat
  data_type : DataType
  unit : Option String
  scale : Option ℚ
  offset : Option ℚ
deriving DecidableEq

/- Numeric reinterpretations used by the decoder (Rust `as` casts). -/

/-- Rust `w as i16` for a u16 operand: two's-complement reinterpretation. -/
def i16OfU16 (w : Nat) : Int :=
  if w < 32768 then (w : Int) else (w : Int) - 65536

/-- Rust `w as i32` for a u32 operand: two's-complement reinterpretation. -/
def i32OfU32 (w : Nat) : Int :=
  if w < 2147483648 then (w : Int) else (w : Int) - 4294967296

/-- The 32-bit pattern `(hi as u32) << 16 | lo as u32` built from two
16-bit words, high word first. -/
def u32OfWords (hi lo : Nat) : Nat :=
  (hi <<< 16) ||| lo

/-- IEEE-754 binary32 value of a 32-bit pattern (Rust `f32::from_bits`),
as an exact rational.  Finite values (normal and subnormal) are decoded
exactly; the exponent-255 patterns (infinities and NaNs) have no rational
counterpart and are mapped to 0 in this carrier. -/
def f32FromBits (bits : Nat) : ℚ :=
  let b := bits % 4294967296
  let sign : ℚ := if b / 2147483648 = 1 then -1 else 1
  let expo := (b / 8388608) % 256
  let frac := b % 8388608
  if expo = 0 then
    sign * (frac : ℚ) / (2 ^ 149 : ℚ)
  else if expo = 255 then
    0
  else
    sign * ((8388608 + frac : Nat) : ℚ) * (2 ^ expo : ℚ) / (2 ^ 150 : ℚ)

/- Decoder, from src/modbus/reader.rs `convert_value`. -/

/-- The `match config.data_type` block of reader.rs `convert_value`:
raw words to the un-calibrated decoded value.  `raw.getD 0 0` renders
Rust `raw.first().copied().unwrap_or(0)` and the checked `raw[i]`. -/
def decodeRaw (dt : DataType) (raw : List Nat) : ℚ :=
  match dt with
  | .U16 => ((raw.getD 0 0 : Nat) : ℚ)
  | .I16 => ((i16OfU16 (raw.getD 0 0) : Int) : ℚ)
  | .U32 =>
      if raw.length ≥ 2 then ((u32OfWords (raw.getD 0 0) (raw.getD 1 0) : Nat) : ℚ)
      else 0
  | .I32 =>
      if raw.length ≥ 2 then ((i32OfU32 (u32OfWords (raw.getD 0 0) (raw.getD 1 0)) : Int) : ℚ)
      else 0
  | .F32 =>
      if raw.length ≥ 2 then f32FromBits (u32OfWords (raw.getD 0 0) (raw.getD 1 0))
      else 0
  | .Bool =>
      if raw.getD 0 0 ≠ 0 then 1 else 0

/-- reader.rs `convert_value`: decode the raw words, then apply scale and
offset, absent scale defaulting to 1.0 and absent offset to 0.0. -/
def convert_value (raw : List Nat) (config : RegisterConfig) : ℚ :=
  decodeRaw config.data_type raw * config.scale.getD 1 + config.offset.getD 0

/-- Number of 16-bit words each data type requires (spec table, section 4.1). -/
def requiredWords (dt : DataType) : Nat :=
  match dt with
  | .U16 => 1
  | .I16 => 1
  | .U32 => 2
  | .I32 => 2
  | .F32 => 2
  | .Bool => 1

/-- Reference decoder written from the spec's table in section 4.1, for raw
sequences of at least the required length: U16 is `raw[0]` unsigned, I16 is
`raw[0]` two's-complement, U32 is `(raw[0] << 16) | raw[1]` high word first,
I32 the same pattern reinterpreted signed, F32 the IEEE-754 binary32 value
of that pattern, Bool is 1.0 when `raw[0] != 0` and 0.0 otherwise. -/
def decodeSpec (dt : DataType) (raw : List Nat) : ℚ :=
  match dt with
  | .U16 => ((raw.getD 0 0 : Nat) : ℚ)
  | .I16 => ((i16OfU16 (raw.getD 0 0) : Int) : ℚ)
  | .U32 => ((u32OfWords (raw.getD 0 0) (raw.getD 1 0) : Nat) : ℚ)
  | .I32 => ((i32OfU32 (u32OfWords (raw.getD 0 0) (raw.getD 1 0)) : Int) : ℚ)
  | .F32 => f32FromBits (u32OfWords (raw.getD 0 0) (raw.getD 1 0))
  | .Bool => if raw.getD 0 0 ≠ 0 then 1 else 0

/-- Reference final value per the spec: `decoded * scale + offset`, absent
scale defaulting to 1.0 and absent offset to 0.0. -/
def decodeSpecFinal (config : RegisterConfig) (raw : List Nat) : ℚ :=
  decodeSpec config.data_type raw * config.scale.getD 1 + config.offset.getD 0

example : decodeRaw .U16 [65535] = 65535 := by
  norm_num [decodeRaw]
example : decodeRaw .I16 [65436] = -100 := by
  norm_num [decodeRaw, i16OfU16]
example : decodeRaw .U32 [1, 65535] = 131071 := by
  have h : u32OfWords 1 65535 = 131071 := by decide
  norm_num [decodeRaw, h]
example : decodeRaw .I32 [65535, 65535] = -1 := by
  have h : u32OfWords 65535 65535 = 4294967295 := by decide
  norm_num [decodeRaw, i32OfU32, h]
example : decodeRaw .Bool [100] = 1 := by
  norm_num [decodeRaw]
example : convert_value [650]
    ⟨"t", 0, .Holding, 1, .U16, none, some (1/10), some (-40)⟩ = 25 := by
  norm_num [convert_value, decodeRaw]
example : decodeRaw .F32 [16457, 4059] = 13176795 / 4194304 := by
  have h : u32OfWords 16457 4059 = 1078530011 := by decide
  norm_num [decodeRaw, f32FromBits, h]

/- Decoder lemmas. -/

theorem decodeRaw_eq_decodeSpec (dt : DataType) (raw : List Nat)
    (hlen : requiredWords dt ≤ raw.length) :
    decodeRaw dt raw = decodeSpec dt raw := by
  cases dt <;>
    simp only [decodeRaw, decodeSpec, requiredWords] at hlen ⊢ <;>
    first
      | rfl
      | rw [if_pos hlen]

theorem decodeRaw_append_of_le_length (dt : DataType) (raw extra : List Nat)
    (hlen : requiredWords dt ≤ raw.length) :
    decodeRaw dt (raw ++ extra) = decodeRaw dt raw := by
  have hlen' : (raw ++ extra).length ≥ requiredWords dt := by
    simp only [List.length_append]
    omega
  cases dt <;> simp only [decodeRaw, requiredWords] at hlen hlen' ⊢
  case U16 =>
    rw [List.getD_append _ _ _ _ (by omega)]
  case I16 =>
    rw [List.getD_append _ _ _ _ (by omega)]
  case U32 =>
    rw [if_pos hlen', if_pos hlen,
      List.getD_append _ _ _ _ (by omega), List.getD_append _ _ _ _ (by omega)]
  case I32 =>
    rw [if_pos hlen', if_pos hlen,
      List.getD_append _ _ _ _ (by omega), List.getD_append _ _ _ _ (by omega)]
  case F32 =>
    rw [if_pos hlen', if_pos hlen,
      List.getD_append _ _ _ _ (by omega), List.getD_append _ _ _ _ (by omega)]
  case Bool =>
    rw [List.getD_append _ _ _ _ (by omega)]

/-- C1: for every register descriptor and raw word sequence of at least the
required length (words in u16 range), reader.rs `convert_value` equals the
spec's reference decoder: `raw[0]` unsigned for U16, `raw[0]` two's-complement
for I16, `(raw[0] << 16) | raw[1]` high word first for U32, the same 32-bit
pattern reinterpreted signed for I32, its IEEE-754 binary32 value for F32,
and `raw[0] != 0` mapped to 1.0/0.0 for Bool — each followed by
`decoded * scale + offset` with defaults 1.0 and 0.0. -/
theorem convert_value_matches_spec (config : RegisterConfig) (raw : List Nat)
    (hw : ∀ w ∈ raw, w < 65536)
    (hlen : requiredWords config.data_type ≤ raw.length) :
    convert_value raw config = decodeSpecFinal config raw := by
  unfold convert_value decodeSpecFinal
  rw [decodeRaw_eq_decodeSpec config.data_type raw hlen]

/-- Witness for C1 at the concrete F32 input `[0x4049, 0x0FDB]`. -/
theorem convert_value_matches_spec_witness :
    (∀ w ∈ ([16457, 4059] : List Nat), w < 65536) ∧
    requiredWords DataType.F32 ≤ ([16457, 4059] : List Nat).length ∧
    convert_value [16457, 4059] ⟨"pi", 0, .Holding, 2, .F32, none, none, none⟩ =
      decodeSpecFinal ⟨"pi", 0, .Holding, 2, .F32, none, none, none⟩ [16457, 4059] :=
  ⟨by decide, by decide,
    convert_value_matches_spec ⟨"pi", 0, .Holding, 2, .F32, none, none, none⟩
      [16457, 4059] (by decide) (by decide)⟩

/-- C2: the decoder is total, and whenever the raw word sequence is shorter
than the words its data type requires (in particular for the empty sequence),
the decoded value is the fallback 0.0 rather than a failure. -/
theorem decodeRaw_short_eq_zero (dt : DataType) (raw : List Nat)
    (h : raw.length < requiredWords dt) :
    decodeRaw dt raw = 0 := by
  cases dt <;> simp only [requiredWords] at h
  case U16 =>
    cases raw with
    | nil => simp [decodeRaw]
    | cons a l => simp at h
  case I16 =>
    cases raw with
    | nil => simp [decodeRaw, i16OfU16]
    | cons a l => simp at h
  case U32 =>
    simp only [decodeRaw]
    rw [if_neg (by omega)]
  case I32 =>
    simp only [decodeRaw]
    rw [if_neg (by omega)]
  case F32 =>
    simp only [decodeRaw]
    rw [if_neg (by omega)]
  case Bool =>
    cases raw with
    | nil => simp [decodeRaw]
    | cons a l => simp at h

/-- Witness for C2 at the empty raw sequence: `decode(U32, []) = 0.0`. -/
theorem decodeRaw_short_eq_zero_witness :
    ([] : List Nat).length < requiredWords DataType.U32 ∧
    decodeRaw DataType.U32 [] = 0 :=
  ⟨by decide, decodeRaw_short_eq_zero DataType.U32 [] (by decide)⟩

/-- C10: the decoder only depends on the leading words it requires — once the
raw sequence is at least as long as the required word count, appending
trailing words never changes the converted value. -/
theorem convert_value_ignores_trailing (config : RegisterConfig) (raw extra : List Nat)
    (hlen : requiredWords config.data_type ≤ raw.length) :
    convert_value (raw ++ extra) config = convert_value raw config := by
  unfold convert_value
  rw [decodeRaw_append_of_le_length config.data_type raw extra hlen]

/-- Witness for C10: appending two trailing words to a complete U16 read. -/
theorem convert_value_ignores_trailing_witness :
    requiredWords DataType.U16 ≤ ([650] : List Nat).length ∧
    convert_value ([650] ++ [7, 9]) ⟨"t", 0, .Holding, 1, .U16, none, none, none⟩ =
      convert_value [650] ⟨"t", 0, .Holding, 1, .U16, none, none, none⟩ :=
  ⟨by decide,
    convert_value_ignores_trailing ⟨"t", 0, .Holding, 1, .U16, none, none, none⟩
      [650] [7, 9] (by decide)⟩

/- Register store, from src/modbus/reader.rs and src/bridge.rs.
The runtime store is HashMap<String, HashMap<String, RegisterValue>>;
it is modelled as a String-keyed association list of association lists. -/

/-- Runtime register snapshot, from reader.rs `RegisterValue`.  The UTC
timestamp is modelled as a natural number of clock ticks. -/
structure RegisterValue where
  name : String
  raw : List Nat
  value : ℚ
  unit : Option String
  timestamp : Nat
deriving DecidableEq

/-- HashMap lookup (`map.get`) on the association-list model. -/
def mapLookup {β : Type} (m : List (String × β)) (k : String) : Option β :=
  match m with
  | [] => none
  | (k', v) :: rest => if k' = k then some v else mapLookup rest k

/-- HashMap upsert (`map.insert`) on the association-list model. -/
def mapInsert {β : Type} (m : List (String × β)) (k : String) (v : β) :
    List (String × β) :=
  match m with
  | [] => [(k, v)]
  | (k', v') :: rest =>
      if k' = k then (k, v) :: rest else (k', v') :: mapInsert rest k v

/-- The store: device id to register name to latest value. -/
def RegisterStore : Type := List (String × List (String × RegisterValue))

/-- The commit of one RegisterValue, from the write-lock block of
bridge.rs `start_polling_with_broadcast` (and reader.rs `start_polling`):
`store.entry(device_id).or_insert_with(HashMap::new)` followed by
`device_map.insert(register.name, reg_value)`, under one lock acquisition. -/
def storeCommit (store : RegisterStore) (device_id : String) (rv : RegisterValue) :
    RegisterStore :=
  mapInsert store device_id
    (mapInsert ((mapLookup store device_id).getD []) rv.name rv)

/-- `get_register`: the value the REST layer reads for (device, register). -/
def getRegister (store : RegisterStore) (device_id register_name : String) :
    Option RegisterValue :=
  (mapLookup store device_id).bind fun m => mapLookup m register_name

/-- The store effect of one register read in the per-device poll loop body
(bridge.rs `start_polling_with_broadcast`): a successful read decodes the
words and commits a fresh RegisterValue; a failed read (`Err` branch) only
logs and records metrics, leaving the store untouched. -/
def pollStep (device_id : String) (store : RegisterStore) (register : RegisterConfig)
    (read : Option (List Nat)) (now : Nat) : RegisterStore :=
  match read with
  | some raw =>
      storeCommit store device_id
        ⟨register.name, raw, convert_value raw register, register.unit, now⟩
  | none => store

/-- One poll cycle: the descriptors are processed in configured order, each
through `pollStep` with that register's read outcome and clock reading. -/
def pollCycle (device_id : String) (reads : RegisterConfig → Option (List Nat))
    (clock : RegisterConfig → Nat) (store : RegisterStore)
    (registers : List RegisterConfig) : RegisterStore :=
  match registers with
  | [] => store
  | r :: rest =>
      pollCycle device_id reads clock
        (pollStep device_id store r (reads r) (clock r)) rest

/- Association-list lemmas. -/

theorem mapLookup_mapInsert_self {β : Type} (m : List (String × β)) (k : String) (v : β) :
    mapLookup (mapInsert m k v) k = some v := by
  induction m with
  | nil => simp [mapInsert, mapLookup]
  | cons hd tl ih =>
      obtain ⟨k', v'⟩ := hd
      by_cases h : k' = k
      · simp [mapInsert, mapLookup, h]
      · simp [mapInsert, mapLookup, h, ih]

theorem mapLookup_mapInsert_ne {β : Type} (m : List (String × β)) (k k' : String) (v : β)
    (h : k' ≠ k) :
    mapLookup (mapInsert m k v) k' = mapLookup m k' := by
  have h' : k ≠ k' := Ne.symm h
  induction m with
  | nil => simp [mapInsert, mapLookup, h']
  | cons hd tl ih =>
      obtain ⟨k0, v0⟩ := hd
      by_cases h0 : k0 = k
      · subst h0
        simp [mapInsert, mapLookup, h']
      · simp [mapInsert, mapLookup, h0, ih]

theorem mapInsert_ne_nil {β : Type} (m : List (String × β)) (k : String) (v : β) :
    mapInsert m k v ≠ [] := by
  cases m with
  | nil => simp [mapInsert]
  | cons hd tl =>
      obtain ⟨k', v'⟩ := hd
      by_cases h : k' = k <;> simp [mapInsert, h]

/- Store commit lemmas. -/

theorem getRegister_storeCommit_self (store : RegisterStore) (device_id : String)
    (rv : RegisterValue) :
    getRegister (storeCommit store device_id rv) device_id rv.name = some rv := by
  unfold getRegister storeCommit
  rw [mapLookup_mapInsert_self]
  simp [mapLookup_mapInsert_self]

theorem getRegister_storeCommit_other (store : RegisterStore) (device_id : String)
    (rv : RegisterValue) (d n : String) (h : ¬(d = device_id ∧ n = rv.name)) :
    getRegister (storeCommit store device_id rv) d n = getRegister store d n := by
  unfold getRegister storeCommit
  by_cases hd : d = device_id
  · subst hd
    have hn : n ≠ rv.name := fun hn => h ⟨rfl, hn⟩
    rw [mapLookup_mapInsert_self]
    simp only [Option.bind]
    rw [mapLookup_mapInsert_ne _ _ _ _ hn]
    cases hml : mapLookup store d with
    | none => simp [mapLookup]
    | some m => simp
  · rw [mapLookup_mapInsert_ne _ _ _ _ hd]

/-- C6: in every poll-cycle step, a successful register read replaces exactly
that register's entry in the store with the freshly decoded RegisterValue
(every other entry untouched), a failed read leaves the store entirely
unchanged, and the cycle continues with the remaining descriptors either way. -/
theorem pollCycle_step (device_id : String) (reads : RegisterConfig → Option (List Nat))
    (clock : RegisterConfig → Nat) (store : RegisterStore)
    (r : RegisterConfig) (rest : List RegisterConfig) :
    pollCycle device_id reads clock store (r :: rest)
        = pollCycle device_id reads clock
            (pollStep device_id store r (reads r) (clock r)) rest
    ∧ (reads r = none → pollStep device_id store r (reads r) (clock r) = store)
    ∧ ∀ raw, reads r = some raw →
        getRegister (pollStep device_id store r (reads r) (clock r)) device_id r.name
            = some ⟨r.name, raw, convert_value raw r, r.unit, clock r⟩
        ∧ ∀ d n, ¬(d = device_id ∧ n = r.name) →
            getRegister (pollStep device_id store r (reads r) (clock r)) d n
              = getRegister store d n := by
  refine ⟨rfl, ?_, ?_⟩
  · intro h
    rw [h]
    rfl
  · intro raw h
    rw [h]
    exact ⟨getRegister_storeCommit_self store device_id _,
      fun d n hn => getRegister_storeCommit_other store device_id _ d n hn⟩

/-- Witness for C6: a successful read of register "temperature" commits the
decoded value under device "plc-001" and leaves other device ids untouched;
a cycle whose only read fails returns the store unchanged. -/
theorem pollCycle_step_witness :
    getRegister
        (pollStep "plc-001" [] ⟨"temperature", 0, .Holding, 1, .U16, none, none, none⟩
          (some [650]) 3) "plc-001" "temperature"
      = some ⟨"temperature", [650],
          convert_value [650] ⟨"temperature", 0, .Holding, 1, .U16, none, none, none⟩,
          none, 3⟩
    ∧ getRegister
        (pollStep "plc-001" [] ⟨"temperature", 0, .Holding, 1, .U16, none, none, none⟩
          (some [650]) 3) "plc-002" "temperature"
      = getRegister [] "plc-002" "temperature"
    ∧ pollStep "plc-001" [] ⟨"temperature", 0, .Holding, 1, .U16, none, none, none⟩
        none 3 = [] := by
  have h := pollCycle_step "plc-001" (fun _ => some [650]) (fun _ => 3) []
    ⟨"temperature", 0, .Holding, 1, .U16, none, none, none⟩ []
  have h' := pollCycle_step "plc-001" (fun _ => none) (fun _ => 3) []
    ⟨"temperature", 0, .Holding, 1, .U16, none, none, none⟩ []
  exact ⟨(h.2.2 [650] rfl).1,
    (h.2.2 [650] rfl).2 "plc-002" "temperature" (by simp),
    h'.2.1 rfl⟩

/- Commit sequences, for the store invariant. -/

/-- A sequence of poll-loop commits applied to a store: the only way the
store is ever mutated (reader.rs and bridge.rs both mutate solely through
the commit block modelled by `storeCommit`). -/
def applyCommits (cs : List (String × RegisterValue)) (store : RegisterStore) :
    RegisterStore :=
  match cs with
  | [] => store
  | (d, rv) :: rest => applyCommits rest (storeCommit store d rv)

/-- `get_device`: the register map the REST layer reads for a device id. -/
def getDevice (store : RegisterStore) (device_id : String) :
    Option (List (String × RegisterValue)) :=
  mapLookup store device_id

theorem storeCommit_preserves_nonempty (store : RegisterStore)
    (hwf : ∀ d m, mapLookup store d = some m → m ≠ [])
    (device_id : String) (rv : RegisterValue) :
    ∀ d m, mapLookup (storeCommit store device_id rv) d = some m → m ≠ [] := by
  intro d m h
  by_cases hd : d = device_id
  · subst hd
    unfold storeCommit at h
    rw [mapLookup_mapInsert_self] at h
    cases h
    exact mapInsert_ne_nil _ _ _
  · unfold storeCommit at h
    rw [mapLookup_mapInsert_ne _ _ _ _ hd] at h
    exact hwf d m h

theorem applyCommits_preserves_nonempty (cs : List (String × RegisterValue)) :
    ∀ store : RegisterStore, (∀ d m, mapLookup store d = some m → m ≠ []) →
      ∀ d m, mapLookup (applyCommits cs store) d = some m → m ≠ [] := by
  induction cs with
  | nil => intro store hwf d m h; exact hwf d m h
  | cons c rest ih =>
      obtain ⟨cd, crv⟩ := c
      intro store hwf d m h
      exact ih (storeCommit store cd crv)
        (storeCommit_preserves_nonempty store hwf cd crv) d m h

/-- C7: in any store built by poll-loop commits from the initial empty store,
`get_device` returning Found implies at least one register has been committed
for that device — the inner map is only ever created together with the
insertion of a RegisterValue, in the same write-lock acquisition. -/
theorem getDevice_found_nonempty (cs : List (String × RegisterValue)) (d : String)
    (m : List (String × RegisterValue))
    (h : getDevice (applyCommits cs []) d = some m) : m ≠ [] :=
  applyCommits_preserves_nonempty cs [] (by intro d' m' h'; cases h') d m h

/-- Witness for C7: after the single commit of "temperature" to "plc-001",
the device's register map is found and is non-empty. -/
theorem getDevice_found_nonempty_witness :
    getDevice
        (applyCommits [("plc-001", ⟨"temperature", [250], 25, some "C", 1⟩)] [])
        "plc-001"
      = some [("temperature", ⟨"temperature", [250], 25, some "C", 1⟩)]
    ∧ ([("temperature", (⟨"temperature", [250], 25, some "C", 1⟩ : RegisterValue))]
        : List (String × RegisterValue)) ≠ [] := by
  refine ⟨by rfl, ?_⟩
  exact getDevice_found_nonempty
    [("plc-001", ⟨"temperature", [250], 25, some "C", 1⟩)] "plc-001"
    [("temperature", ⟨"temperature", [250], 25, some "C", 1⟩)] (by rfl)

/- Write round-trip, from src/api/mod.rs and src/bridge.rs. -/

/-- Write request record, from api/mod.rs `WriteRequest` (the one-shot reply
channel is modelled by the handler functions returning the reply value). -/
structure WriteRequest where
  device_id : String
  address : Nat
  value : Nat
deriving DecidableEq

deriving instance DecidableEq for Except

/-- modbus/mod.rs `ModbusClient::write_register`: with no connection the
write fails with "No connection available"; otherwise the transport's
write_single outcome is returned, errors prefixed "Modbus write error: ". -/
def ModbusClient.write_register (connected : Bool) (wire : Except String Unit) :
    Except String Unit :=
  if connected then
    match wire with
    | .ok () => .ok ()
    | .error e => .error ("Modbus write error: " ++ e)
  else .error "No connection available"

/-- bridge.rs write-request handler (`Bridge::run`, the spawned
`write_rx.recv()` loop): the reply it sends on each request's one-shot
channel.  The body only logs and acknowledges: it sends `Ok(())` without
consulting any device session. -/
def bridgeWriteReply (_req : WriteRequest) : Except String Unit :=
  .ok ()

/-- C3 (failing evaluation): for the write request plc-001@0 = 42 whose
owning device session's `write_single` fails ("No connection available"),
the bridge handler still replies `Ok(())` — the reply sent on the one-shot
channel is not the result of the Modbus write, contradicting the claim. -/
theorem bridgeWriteReply_ignores_device_result :
    bridgeWriteReply ⟨"plc-001", 0, 42⟩ = Except.ok ()
    ∧ ModbusClient.write_register false (Except.ok ())
        = Except.error "No connection available"
    ∧ bridgeWriteReply ⟨"plc-001", 0, 42⟩
        ≠ ModbusClient.write_register false (Except.ok ()) := by
  refine ⟨rfl, rfl, ?_⟩
  intro h
  simp [bridgeWriteReply, ModbusClient.write_register] at h

/-- Error body shape of the REST layer, from api/mod.rs `ApiError`
(status code, error string, optional details). -/
structure HttpError where
  status : Nat
  error : String
  details : Option String
deriving DecidableEq

/-- api/mod.rs `write_register` handler, validation and request-building
part (the block computing `address` and the `WriteRequest` it emits):
device and register must exist in the store, and the emitted request
carries the placeholder address `0u16`. -/
def writeRegisterRequest (store : RegisterStore) (device_id register_name : String)
    (value : Nat) : Except HttpError WriteRequest :=
  match mapLookup store device_id with
  | none => .error ⟨404, "Device not found", none⟩
  | some registers =>
      match mapLookup registers register_name with
      | none => .error ⟨404, "Register not found", none⟩
      | some _ => .ok ⟨device_id, 0, value⟩

/-- Modelled from the spec: the write-back address source required by the
spec (design note in section 9 and C4): the handler must look up the named
register's descriptor, refuse writes to registers whose kind is not
Holding, and emit the descriptor's actual configured address. -/
def writeRegisterRequestSpec (descriptors : List RegisterConfig)
    (device_id register_name : String) (value : Nat) :
    Except HttpError WriteRequest :=
  match descriptors.find? (fun r => r.name == register_name) with
  | none => .error ⟨404, "Register not found", none⟩
  | some r =>
      if r.register_type = .Holding then .ok ⟨device_id, r.address, value⟩
      else .error ⟨400, "Register is not writable", none⟩

/-- C4 (failing evaluation): with register "temperature" of device "plc-001"
configured at address 7, the REST handler emits a WriteRequest with the
placeholder address 0, not the descriptor's address 7; and for the
Input-kind register "fan_mode" it emits a write request instead of refusing,
contradicting the claim on both counts. -/
theorem writeRegisterRequest_placeholder_address :
    writeRegisterRequest
        [("plc-001", [("temperature", ⟨"temperature", [250], 25, none, 1⟩)])]
        "plc-001" "temperature" 100
      = Except.ok ⟨"plc-001", 0, 100⟩
    ∧ writeRegisterRequestSpec
        [⟨"temperature", 7, .Holding, 1, .U16, none, none, none⟩]
        "plc-001" "temperature" 100
      = Except.ok ⟨"plc-001", 7, 100⟩
    ∧ (Except.ok (⟨"plc-001", 0, 100⟩ : WriteRequest) : Except HttpError WriteRequest)
        ≠ Except.ok ⟨"plc-001", 7, 100⟩
    ∧ writeRegisterRequest
        [("plc-001", [("fan_mode", ⟨"fan_mode", [1], 1, none, 1⟩)])]
        "plc-001" "fan_mode" 1
      = Except.ok ⟨"plc-001", 0, 1⟩
    ∧ writeRegisterRequestSpec
        [⟨"fan_mode", 20, .Input, 1, .U16, none, none, none⟩]
        "plc-001" "fan_mode" 1
      = Except.error ⟨400, "Register is not writable", none⟩ := by
  refine ⟨by rfl, by rfl, by decide, by rfl, by rfl⟩

/-- The reply-side event the api/mod.rs `write_register` handler observes
after queueing the request: the 5 s timer fires first, or the oneshot
sender is dropped, or the oneshot resolves with the Modbus result. -/
inductive WriteReplyEvent
  | timeout
  | channelDropped
  | reply (r : Except String Unit)
deriving DecidableEq

/-- Success body of the write endpoint, from api/mod.rs
`WriteRegisterResponse`. -/
structure WriteRegisterResponse where
  success : Bool
  device_id : String
  register_name : String
  value_written : Nat
  message : String
deriving DecidableEq

/-- The write-request timeout of api/mod.rs `write_register`
(`Duration::from_secs(5)`), in seconds. -/
def write_timeout_secs : Nat := 5

/-- The bound of the write-request queue, from bridge.rs
`mpsc::channel::<WriteRequest>(100)`. -/
def write_queue_depth : Nat := 100

/-- Outcome of the handoff `state.write_tx.send(write_request).await` on the
bounded queue: the request was delivered into the queue, or the send returned
`Err` because the receiving handler was dropped (channel closed). -/
inductive SendResult
  | delivered
  | closed
deriving DecidableEq

/-- Semantics of `Sender::send(..).await` on the bounded tokio mpsc channel,
as used at api/mod.rs line 457: the send errors exactly when the receiver
has been dropped; while the receiver is alive a full queue (queue_len at the
capacity) only makes the send wait for capacity — it is still delivered,
never an error.  The queue occupancy and capacity are passed in to record
that they do not influence the outcome. -/
def mpsc_send (receiver_alive : Bool) (queue_len capacity : Nat) : SendResult :=
  if receiver_alive then .delivered else .closed

/-- api/mod.rs `write_register`, response part: how the handler maps the
queue-send outcome and the reply event to the HTTP response, mirroring the
`map_err`/`?` chain of the source. -/
def writeRegisterOutcome (send : SendResult) (ev : WriteReplyEvent)
    (device_id register_name : String) (value : Nat) :
    Except HttpError WriteRegisterResponse :=
  match send with
  | .closed =>
      .error ⟨503, "Write service unavailable", some "The Modbus write handler is not running"⟩
  | .delivered =>
      match ev with
      | .timeout =>
          .error ⟨504, "Write timeout", some "The Modbus device did not respond in time"⟩
      | .channelDropped =>
          .error ⟨500, "Write failed", some "Response channel closed unexpectedly"⟩
      | .reply (.ok ()) =>
          .ok ⟨true, device_id, register_name, value, "Register written successfully"⟩
      | .reply (.error e) =>
          .error ⟨502, "Modbus write failed", some e⟩

/-- C5 (failing evaluation): a full write queue does not yield 503.  With the
write handler alive and the queue at its full depth of 100, the send is still
delivered (it only waits for capacity), the request completes normally, and
the response is not the 503 error — so "write queue full yields
SERVICE_UNAVAILABLE" does not hold of the program; the send errors, and 503
is produced, only when the handler has been dropped. -/
theorem writeRegisterOutcome_full_queue_no_503 :
    mpsc_send true write_queue_depth write_queue_depth = .delivered
    ∧ writeRegisterOutcome (mpsc_send true write_queue_depth write_queue_depth)
        (.reply (.ok ())) "plc-001" "temperature" 42
      = Except.ok ⟨true, "plc-001", "temperature", 42, "Register written successfully"⟩
    ∧ writeRegisterOutcome (mpsc_send true write_queue_depth write_queue_depth)
        (.reply (.ok ())) "plc-001" "temperature" 42
      ≠ Except.error ⟨503, "Write service unavailable",
          some "The Modbus write handler is not running"⟩ := by
  refine ⟨rfl, rfl, ?_⟩
  intro h
  cases h

/-- C5 as amended: the REST write endpoint maps failure modes to HTTP
statuses as follows — a failed handoff to the bounded write queue, which
occurs exactly when the write handler has been dropped (a merely full queue
delays the send but never fails it), yields 503 SERVICE_UNAVAILABLE; no
reply within the 5 s timeout yields 504 GATEWAY_TIMEOUT; a dropped reply
channel yields 500 INTERNAL_SERVER_ERROR; and a Modbus-level write error
yields 502 BAD_GATEWAY carrying the error string in the details. -/
theorem writeRegisterOutcome_status_mapping :
    (∀ queue_len capacity : Nat, mpsc_send false queue_len capacity = .closed)
    ∧ (∀ queue_len capacity : Nat, mpsc_send true queue_len capacity = .delivered)
    ∧ (∀ (ev : WriteReplyEvent) (d n : String) (v : Nat),
        writeRegisterOutcome .closed ev d n v
          = Except.error ⟨503, "Write service unavailable",
              some "The Modbus write handler is not running"⟩)
    ∧ write_timeout_secs = 5
    ∧ (∀ (d n : String) (v : Nat),
        writeRegisterOutcome .delivered .timeout d n v
          = Except.error ⟨504, "Write timeout",
              some "The Modbus device did not respond in time"⟩)
    ∧ (∀ (d n : String) (v : Nat),
        writeRegisterOutcome .delivered .channelDropped d n v
          = Except.error ⟨500, "Write failed",
              some "Response channel closed unexpectedly"⟩)
    ∧ (∀ (msg : String) (d n : String) (v : Nat),
        writeRegisterOutcome .delivered (.reply (.error msg)) d n v
          = Except.error ⟨502, "Modbus write failed", some msg⟩) :=
  ⟨fun _ _ => rfl, fun _ _ => rfl, fun _ _ _ _ => rfl, rfl,
    fun _ _ _ => rfl, fun _ _ _ => rfl, fun _ _ _ _ => rfl⟩

/- API-key authentication, from src/api/auth.rs. -/

/-- Auth configuration, from `crate::config::AuthConfig` as constructed and
consumed throughout api/auth.rs: an enable flag, the configured key set, and
the exclusion path entries. -/
structure AuthConfig where
  enabled : Bool
  api_keys : List String
  exclude_paths : List String
deriving DecidableEq

/-- Rust `p.ends_with('*')`, on the char-list view of the string. -/
def endsWithStar (p : String) : Bool :=
  p.data.getLast? == some '*'

/-- Rust `path.starts_with(pre)`, on the char-list view of the strings. -/
def strStartsWith (path pre : String) : Bool :=
  pre.data.isPrefixOf path.data

/-- Rust `&p[..p.len() - 1]`: the entry with its final character (the `*`,
a one-byte character) removed. -/
def dropLastChar (p : String) : String :=
  ⟨p.data.dropLast⟩

/-- auth.rs `AuthState::is_excluded_path`: some configured entry matches the
path, entries ending in `*` by prefix on the part before the `*`, all other
entries by exact equality. -/
def is_excluded_path (cfg : AuthConfig) (path : String) : Bool :=
  cfg.exclude_paths.any fun p =>
    if endsWithStar p then strStartsWith path (dropLastChar p) else path == p

/-- auth.rs `AuthState::is_valid_key`: the key equals some configured key. -/
def is_valid_key (cfg : AuthConfig) (key : String) : Bool :=
  cfg.api_keys.any fun k => k == key

/-- Outcome of the auth middleware for one request: pass the request on, or
reject it with a status and the error/message body fields. -/
inductive AuthDecision
  | pass
  | reject (status : Nat) (error message : String)
deriving DecidableEq

/-- auth.rs `api_key_auth`: disabled auth and excluded paths pass; otherwise
a present, valid X-API-Key passes and anything else is a 401 rejection with
error field "unauthorized". -/
def api_key_auth (cfg : AuthConfig) (path : String) (api_key : Option String) :
    AuthDecision :=
  if cfg.enabled = false then .pass
  else if is_excluded_path cfg path then .pass
  else
    match api_key with
    | some key =>
        if is_valid_key cfg key then .pass
        else .reject 401 "unauthorized" "Invalid API key"
    | none => .reject 401 "unauthorized" "Missing X-API-Key header"

/-- An exclusion entry matches a path, in the spec's words: an entry ending
in `*` matches any path starting with the prefix before the `*`; any other
entry matches only by exact equality. -/
def entryMatches (p path : String) : Prop :=
  if endsWithStar p then strStartsWith path (dropLastChar p) = true else path = p

instance (p path : String) : Decidable (entryMatches p path) := by
  unfold entryMatches
  infer_instance

theorem is_excluded_path_iff (cfg : AuthConfig) (path : String) :
    is_excluded_path cfg path = true ↔ ∃ p ∈ cfg.exclude_paths, entryMatches p path := by
  unfold is_excluded_path
  rw [List.any_eq_true]
  refine exists_congr fun p => and_congr_right fun _ => ?_
  unfold entryMatches
  by_cases h : endsWithStar p = true
  · simp [h]
  · simp only [Bool.not_eq_true] at h
    simp [h]

theorem is_valid_key_iff (cfg : AuthConfig) (key : String) :
    is_valid_key cfg key = true ↔ key ∈ cfg.api_keys := by
  unfold is_valid_key
  rw [List.any_eq_true]
  constructor
  · rintro ⟨k, hk, he⟩
    rwa [show k = key from by simpa using he] at hk
  · intro hk
    exact ⟨key, hk, by simp⟩

/-- C8: with auth enabled, a request without a key is admitted exactly when
some configured exclusion entry matches its path (trailing-`*` entries by
prefix, others by exact equality), and every non-excluded request whose
X-API-Key is missing or not in the configured key set is rejected with
status 401 and error field "unauthorized". -/
theorem api_key_auth_spec (cfg : AuthConfig) (path : String)
    (hEn : cfg.enabled = true) :
    (api_key_auth cfg path none = .pass ↔ ∃ p ∈ cfg.exclude_paths, entryMatches p path)
    ∧ ∀ key : Option String,
        ¬ (∃ p ∈ cfg.exclude_paths, entryMatches p path) →
        (key = none ∨ ∃ s, key = some s ∧ s ∉ cfg.api_keys) →
        ∃ msg, api_key_auth cfg path key = .reject 401 "unauthorized" msg := by
  constructor
  · by_cases hexc : is_excluded_path cfg path = true
    · have hp : api_key_auth cfg path none = .pass := by
        simp [api_key_auth, hEn, hexc]
      exact iff_of_true hp ((is_excluded_path_iff cfg path).mp hexc)
    · have hr : api_key_auth cfg path none
          = .reject 401 "unauthorized" "Missing X-API-Key header" := by
        simp only [Bool.not_eq_true] at hexc
        simp [api_key_auth, hEn, hexc]
      refine iff_of_false (fun hp => ?_) fun hx =>
        hexc ((is_excluded_path_iff cfg path).mpr hx)
      rw [hr] at hp
      cases hp
  · intro key hnex hmiss
    have hexc : is_excluded_path cfg path = false := by
      rcases h : is_excluded_path cfg path
      · rfl
      · exact absurd ((is_excluded_path_iff cfg path).mp h) hnex
    rcases hmiss with h | ⟨s, hs, hmem⟩
    · subst h
      exact ⟨"Missing X-API-Key header", by simp [api_key_auth, hEn, hexc]⟩
    · subst hs
      have hv : is_valid_key cfg s = false := by
        rcases h : is_valid_key cfg s
        · rfl
        · exact absurd ((is_valid_key_iff cfg s).mp h) hmem
      exact ⟨"Invalid API key", by simp [api_key_auth, hEn, hexc, hv]⟩

/-- Witness for C8 with `exclude_paths = ["/health", "/public/*"]` and key
set `["secret"]`: a key-less GET of /health passes, a key-less GET of
/api/devices is rejected 401 with error "unauthorized". -/
theorem api_key_auth_spec_witness :
    (api_key_auth ⟨true, ["secret"], ["/health", "/public/*"]⟩ "/health" none
        = .pass
      ↔ ∃ p ∈ ["/health", "/public/*"], entryMatches p "/health")
    ∧ ∃ msg, api_key_auth ⟨true, ["secret"], ["/health", "/public/*"]⟩
        "/api/devices" none = .reject 401 "unauthorized" msg := by
  refine ⟨(api_key_auth_spec ⟨true, ["secret"], ["/health", "/public/*"]⟩
    "/health" rfl).1, ?_⟩
  exact (api_key_auth_spec ⟨true, ["secret"], ["/health", "/public/*"]⟩
    "/api/devices" rfl).2 none (by decide) (Or.inl rfl)

/- WebSocket subscription filter, from src/api/mod.rs `handle_socket`. -/

/-- Client-to-server frames that affect the subscription filter, from the
api/mod.rs `WsMessage` cases `handle_socket` reacts to (frames it ignores
are collapsed into `other`). -/
inductive WsClientFrame
  | subscribe (devices : Option (List String))
  | unsubscribe
  | other
deriving DecidableEq

/-- Initial per-connection filter, from
`let mut subscribed_devices: Option<Vec<String>> = None` (None = all). -/
def initialFilter : Option (List String) := none

/-- handle_socket's filter update on a client frame: subscribe replaces the
filter with the frame's devices field, unsubscribe sets `Some(vec![])`,
everything else leaves the filter alone. -/
def applyClientFrame (filter : Option (List String)) (frame : WsClientFrame) :
    Option (List String) :=
  match frame with
  | .subscribe devices => devices
  | .unsubscribe => some []
  | .other => filter

/-- handle_socket's `should_send` computation for a received bus update:
None means subscribed to all, an empty list means unsubscribed, and
otherwise membership of the update's device id decides. -/
def shouldSend (filter : Option (List String)) (device_id : String) : Bool :=
  match filter with
  | none => true
  | some devices => if devices.isEmpty then false else devices.contains device_id

/-- A device id matches the subscription filter, in the spec's words: `All`
matches every id, a device set matches exactly its members (so the empty set
matches nothing). -/
def filterMatches (filter : Option (List String)) (device_id : String) : Prop :=
  match filter with
  | none => True
  | some devices => device_id ∈ devices

/-- C9: the WebSocket subscription filter starts as All; a subscribe frame
with a missing or null devices list resets it to All while one carrying a
list replaces the filter with that set; an unsubscribe frame sets the filter
to the empty set; and a received bus update is forwarded exactly when its
device id matches the current filter. -/
theorem ws_filter_spec :
    initialFilter = none
    ∧ (∀ (filter : Option (List String)) (devices : Option (List String)),
        applyClientFrame filter (.subscribe devices) = devices)
    ∧ (∀ filter : Option (List String), applyClientFrame filter .unsubscribe = some [])
    ∧ ∀ (filter : Option (List String)) (device_id : String),
        shouldSend filter device_id = true ↔ filterMatches filter device_id := by
  refine ⟨rfl, fun _ _ => rfl, fun _ => rfl, ?_⟩
  intro filter device_id
  cases filter with
  | none => simp [shouldSend, filterMatches]
  | some devices =>
      cases devices with
      | nil => simp [shouldSend, filterMatches]
      | cons a l =>
          simp [shouldSend, filterMatches, List.elem_iff]

/-- Witness for C9 at a concrete session: subscribing to ["plc-001"],
the unsubscribe transition, and the forwarding condition for "plc-001". -/
theorem ws_filter_spec_witness :
    applyClientFrame initialFilter (.subscribe (some ["plc-001"])) = some ["plc-001"]
    ∧ applyClientFrame (some ["plc-001"]) .unsubscribe = some []
    ∧ (shouldSend (some ["plc-001"]) "plc-001" = true
        ↔ filterMatches (some ["plc-001"]) "plc-001") :=
  ⟨ws_filter_spec.2.1 initialFilter (some ["plc-001"]),
    ws_filter_spec.2.2.1 (some ["plc-001"]),
    ws_filter_spec.2.2.2 (some ["plc-001"]) "plc-001"⟩
